/-
Formal model of `scripts/1.py` from the VITS fast fine-tuning repository:
a resumable batch-transcription driver that walks per-speaker directories of
WAV files, downmixes/resamples each file, rejects over-long clips, runs an
external speech-recognition collaborator, tags the transcript with a language
token, and appends `path|speaker|annotated_text` lines to an append-only
manifest, skipping files already recorded in the manifest.

The external collaborators (torchaudio load/resample/save, the Whisper model,
and the append to the manifest file) are modelled as a black-box per-file
oracle `FileOracle`: each collaborator call either raises an exception
(`Except.error`) or returns a result, exactly as the Python `try`/`except`
structure distinguishes.  The control flow of the script depends on audio
data only through the sample count of dimension 1 (`wav.shape[1]`), the
sample rate, and collaborator success/failure, so the oracle records those.
Durations are exact rationals (`wav.shape[1] / target_sr`).
-/
import Mathlib

namespace ShortAudioTranscribe

/-- One line of the output manifest, written as `save_path|speaker|annotated_text`
(source line 60: `f.write(f"{save_path}|{speaker}|{annotated_text}\n")`). -/
structure ManifestEntry where
  savePath : String
  speaker : String
  annotatedText : String
deriving DecidableEq, Repr

/-- The text of a manifest line (without the trailing newline). -/
def entryLine (e : ManifestEntry) : String :=
  e.savePath ++ "|" ++ e.speaker ++ "|" ++ e.annotatedText

/-- The log messages the script prints, as structured events. -/
inductive LogEvent
  | skipProcessed (savePath : String)
  | detectedLanguage (audioPath lang : String)
  | transcriptionText (text : String)
  | transcribeError (audioPath : String)
  | tooLongNotice (wavPath : String) (duration : Rat)
  | langNotSupported (lang wavPath : String)
  | processedOk (savePath : String)
  | processError (wavPath : String)
deriving DecidableEq, Repr

/-- Which log events the source prints with `file=sys.stderr`
(source lines 34 and 63); all others go to stdout. -/
def LogEvent.isStderr : LogEvent → Bool
  | .transcribeError _ => true
  | .processError _ => true
  | _ => false

/-- Terminal outcome of processing one candidate file. -/
inductive Outcome
  | alreadyProcessed
  | ioError
  | tooLong
  | transcriptionFailed
  | unsupportedLanguage
  | recorded
deriving DecidableEq, Repr

/-- Black-box behaviour of the external collaborators for one candidate file.
`load` models `torchaudio.load` returning the tensor shape
(number of channels, number of samples) and the file sample rate, or raising;
`resampleLen` models the sample count produced by
`torchaudio.transforms.Resample(orig_freq, new_freq)`;
`save` models `torchaudio.save`; `transcribe` models the Whisper calls in
`transcribe_one` (language detection plus decoding), returning the detected
language code and the decoded text, or raising; `append` models opening the
output file and writing one line. -/
structure FileOracle where
  load : Except String (Nat × Nat × Nat)
  resampleLen : Nat → Nat → Nat → Nat
  save : Except String Unit
  transcribe : Except String (String × String)
  append : Except String Unit

/-- Sample count after the conditional resample (source lines 45-46):
the mono downmix `wav.mean(dim=0).unsqueeze(0)` keeps the sample dimension,
and resampling runs only when `sr != target_sr`. -/
def resampledLen (oracle : FileOracle) (numSamples sr targetSr : Nat) : Nat :=
  if sr ≠ targetSr then oracle.resampleLen numSamples sr targetSr else numSamples

/-- Model of `transcribe_one` (source lines 20-35): on success the detected
language and decoded text are returned (and logged); any exception from the
collaborator is caught, logged to stderr, and turned into `none`
(the Python `return None, None`). -/
def transcribe_one (audioPath : String) (oracle : FileOracle) :
    Option (String × String) × List LogEvent :=
  match oracle.transcribe with
  | .ok (lang, text) =>
      (some (lang, text), [.detectedLanguage audioPath lang, .transcriptionText text])
  | .error _ => (none, [.transcribeError audioPath])

/-- Observable effects of processing one candidate file. -/
structure Effects where
  savedToDisk : Bool
  transcribeCalled : Bool
  appendedEntry : Option ManifestEntry
  outcome : Outcome
  logs : List LogEvent
deriving DecidableEq, Repr

/-- Model of `process_wav_file` (source lines 37-63).  The stages in source
order: resumption gate (line 39), load (43), mono downmix (44), conditional
resample (45-46), duration check against the literal `20.0` (47-50), save
(51), transcription (52-54), language gate (55-57), annotate and append
(58-60).  Exceptions from load/resample/save/append are caught by the outer
`try` (lines 42, 62-63); transcription exceptions are already caught inside
`transcribe_one`. -/
def process_wav_file (wavPath savePath : String) (targetSr : Nat)
    (lang2token : List (String × String)) (processedFiles : List String)
    (speaker : String) (oracle : FileOracle) : Effects :=
  if savePath ∈ processedFiles then
    ⟨false, false, none, .alreadyProcessed, [.skipProcessed savePath]⟩
  else
    match oracle.load with
    | .error _ => ⟨false, false, none, .ioError, [.processError wavPath]⟩
    | .ok (_numChannels, numSamples, sr) =>
      let len := resampledLen oracle numSamples sr targetSr
      let duration : Rat := (len : Rat) / (targetSr : Rat)
      if duration > 20 then
        ⟨false, false, none, .tooLong, [.tooLongNotice wavPath duration]⟩
      else
        match oracle.save with
        | .error _ => ⟨false, false, none, .ioError, [.processError wavPath]⟩
        | .ok _ =>
          match transcribe_one savePath oracle with
          | (none, tlogs) => ⟨true, true, none, .transcriptionFailed, tlogs⟩
          | (some (lang, text), tlogs) =>
            match lang2token.lookup lang with
            | none =>
                ⟨true, true, none, .unsupportedLanguage,
                 tlogs ++ [.langNotSupported lang wavPath]⟩
            | some tok =>
              match oracle.append with
              | .error _ => ⟨true, true, none, .ioError, tlogs ++ [.processError wavPath]⟩
              | .ok _ =>
                  ⟨true, true, some ⟨savePath, speaker, tok ++ text ++ tok⟩, .recorded,
                   tlogs ++ [.processedOk savePath]⟩

/-- Python `str.strip()`: remove leading and trailing whitespace. -/
def pyStrip (s : String) : String :=
  (((s.data.dropWhile Char.isWhitespace).reverse.dropWhile Char.isWhitespace).reverse).asString

/-- Python `str.split('|')`: split on every occurrence of the pipe
character; always yields at least one (possibly empty) field. -/
def pySplit (s : String) : List String :=
  (s.data.splitOn '|').map List.asString

/-- Model of `load_processed_files` (source lines 9-18).  The argument is
`none` when `os.path.exists(output_file)` is false, else `some lines` with the
raw lines of the file.  Python `line.strip()` is `pyStrip`,
`line.split('|')` is `pySplit`, and `parts[0]` under the guard
`len(parts) >= 1` is `List.headD parts ""`.  The Python `set` is modelled as
a list whose membership relation is the set membership. -/
def load_processed_files (manifest : Option (List String)) : List String :=
  match manifest with
  | none => []
  | some lines =>
    lines.foldl
      (fun processed line =>
        let parts := pySplit (pyStrip line)
        if parts.length ≥ 1 then processed ++ [parts.headD ""] else processed)
      []

/-- One discovered candidate: the speaker label, the source path, and the
target path `processed_<i>.wav` (source lines 109-111). -/
structure Candidate where
  speaker : String
  wavPath : String
  savePath : String
deriving DecidableEq, Repr

/-- Observable driver state accumulated over a run: the manifest file lines,
the processed WAV files written to disk, the audio paths for which the
transcription collaborator was invoked, and one outcome per candidate. -/
structure RunState where
  manifestLines : List String
  savedPaths : List String
  transcribedPaths : List String
  outcomes : List Outcome
deriving DecidableEq, Repr

/-- The initial state of a run over a manifest that already holds `lines`. -/
def initState (lines : List String) : RunState :=
  ⟨lines, [], [], []⟩

/-- Effect of one iteration of the main loop body (source line 112) on the
driver state. -/
def stepFile (targetSr : Nat) (lang2token : List (String × String))
    (processedFiles : List String) (oracles : Candidate → FileOracle)
    (st : RunState) (c : Candidate) : RunState :=
  let e := process_wav_file c.wavPath c.savePath targetSr lang2token processedFiles
            c.speaker (oracles c)
  { manifestLines := st.manifestLines ++ (e.appendedEntry.map entryLine).toList,
    savedPaths := st.savedPaths ++ (if e.savedToDisk then [c.savePath] else []),
    transcribedPaths := st.transcribedPaths ++ (if e.transcribeCalled then [c.savePath] else []),
    outcomes := st.outcomes ++ [e.outcome] }

/-- Model of the main loop (source lines 106-114): process every candidate in
order, threading the run state.  `processedFiles` is the snapshot loaded once
at startup (source line 99) and is never refreshed during the run. -/
def runDriver (candidates : List Candidate) (targetSr : Nat)
    (lang2token : List (String × String)) (processedFiles : List String)
    (oracles : Candidate → FileOracle) (st : RunState) : RunState :=
  candidates.foldl (stepFile targetSr lang2token processedFiles oracles) st

/-- Model of `os.path.join` for a relative component. -/
def pathJoin (a b : String) : String := a ++ "/" ++ b

/-- Python `str.endswith`. -/
def pyEndsWith (s suffix : String) : Bool := suffix.data.isSuffixOf s.data

/-- Python `str.startswith`. -/
def pyStartsWith (s pre : String) : Bool := pre.data.isPrefixOf s.data

/-- The file filter of the discovery loop (source line 108):
`f.endswith(".wav") and not f.startswith("processed_")`. -/
def wavFilter (files : List String) : List String :=
  files.filter fun f => pyEndsWith f ".wav" && !(pyStartsWith f "processed_")

/-- Candidates discovered in one speaker directory (source lines 107-111):
the filtered listing is enumerated and the i-th file is paired with the
target path `processed_<i>.wav` in the same directory. -/
def speakerCandidates (inputDir speaker : String) (files : List String) :
    List Candidate :=
  (wavFilter files).enum.map fun p =>
    { speaker := speaker,
      wavPath := pathJoin (pathJoin inputDir speaker) p.2,
      savePath := pathJoin (pathJoin inputDir speaker)
                    ("processed_" ++ toString p.1 ++ ".wav") }

/-- Candidate discovery over the immediate subdirectories of the input root
(source lines 101, 106-111).  `speakers` pairs each immediate subdirectory
name with its directory listing. -/
def discoverCandidates (inputDir : String) (speakers : List (String × List String)) :
    List Candidate :=
  speakers.flatMap fun sp => speakerCandidates inputDir sp.1 sp.2

/-- The language token map selected by `--languages` (source lines 74-83):
`CJE`, `CJ` and `C` select the corresponding entries, anything else is an
invalid language set. -/
def lang2tokenFor (languages : String) : Option (List (String × String)) :=
  if languages = "CJE" then some [("zh", "[ZH]"), ("ja", "[JA]"), ("en", "[EN]")]
  else if languages = "CJ" then some [("zh", "[ZH]"), ("ja", "[JA]")]
  else if languages = "C" then some [("zh", "[ZH]")]
  else none

/-- The command-line argument names registered with the argument parser
(source lines 66-71). -/
def cliArgNames : List String :=
  ["--languages", "--whisper_size", "--input_dir", "--output_file", "--config_file"]

/-- The parsed command-line arguments (source lines 67-71, with their
defaults). -/
structure MainArgs where
  languages : String
  whisperSize : String
  inputDir : String
  outputFile : String
  configFile : String
deriving DecidableEq, Repr

/-- The default argument values of the argument parser (source lines 67-71). -/
def defaultArgs : MainArgs :=
  { languages := "CJE", whisperSize := "medium",
    inputDir := "./custom_character_voice/",
    outputFile := "short_character_anno.txt",
    configFile := "./configs/finetune_speaker.json" }

/-- The ways the script terminates before processing any file:
`sys.exit(1)` on an invalid language set (source lines 81-83), the failed
`assert torch.cuda.is_available()` (source line 85, an uncaught
AssertionError), and the uncaught FileNotFoundError raised by
`os.listdir(args.input_dir)` when the input directory is missing (source
line 101).  Each one ends the Python process with a non-zero status and a
message on the error stream. -/
inductive FatalError
  | invalidLanguageSet (languages : String)
  | noAccelerator
  | missingInputDir (inputDir : String)
deriving DecidableEq, Repr

/-- The message each fatal termination prints on the error stream. -/
def fatalMessage : FatalError → String
  | .invalidLanguageSet s => "Invalid language set: " ++ s
  | .noAccelerator => "AssertionError: Please enable GPU to run Whisper!"
  | .missingInputDir d => "FileNotFoundError: No such file or directory: " ++ d

/-- The process exit status of a run. -/
def exitCode (r : Except FatalError RunState) : Nat :=
  match r with
  | .error _ => 1
  | .ok _ => 0

/-- The filesystem and hardware facts the main entry consults:
whether CUDA is available, the `data.sampling_rate` entry of the config file
when the file exists and parses (source lines 89-96 fall back to 16000
otherwise), the lines of the output file when it exists, and the immediate
subdirectories of the input root with their listings (`none` when the input
directory does not exist), plus the per-candidate collaborator behaviour. -/
structure SysEnv where
  cudaAvailable : Bool
  configSamplingRate : Option Nat
  manifest : Option (List String)
  inputDirListing : Option (List (String × List String))
  oracles : Candidate → FileOracle

/-- Model of the main entry (source lines 65-114), in source order:
select the token map from `--languages` or exit (75-83), assert the
accelerator (85), resolve the target sample rate from the config (89-96),
load the processed-path snapshot (99), list the input root — which raises
when the directory is missing (101) — then run the driver loop over the
discovered candidates (106-114). -/
def runMain (env : SysEnv) (args : MainArgs) : Except FatalError RunState :=
  match lang2tokenFor args.languages with
  | none => .error (.invalidLanguageSet args.languages)
  | some l2t =>
    if !env.cudaAvailable then .error .noAccelerator
    else
      let targetSr := env.configSamplingRate.getD 16000
      let processedFiles := load_processed_files env.manifest
      match env.inputDirListing with
      | none => .error (.missingInputDir args.inputDir)
      | some speakers =>
        let candidates := discoverCandidates args.inputDir speakers
        .ok (runDriver candidates targetSr l2t processedFiles env.oracles
              (initState (env.manifest.getD [])))

/-- The effects of one candidate under the run parameters (the call on
source line 112). -/
def candEffects (targetSr : Nat) (lang2token : List (String × String))
    (processedFiles : List String) (oracles : Candidate → FileOracle)
    (c : Candidate) : Effects :=
  process_wav_file c.wavPath c.savePath targetSr lang2token processedFiles
    c.speaker (oracles c)

/-- A concrete fully-successful collaborator behaviour: a stereo 12-second
clip already at 16 kHz, transcribed as English. -/
def okOracle : FileOracle :=
  { load := .ok (2, 192000, 16000),
    resampleLen := fun n srFrom srTo => n * srTo / srFrom,
    save := .ok (),
    transcribe := .ok ("en", "hello there"),
    append := .ok () }

/-- A concrete collaborator behaviour for a 25-second clip at 16 kHz. -/
def tooLongOracle : FileOracle := { okOracle with load := .ok (1, 400000, 16000) }

/-- A concrete collaborator behaviour whose transcription call raises. -/
def errOracle : FileOracle := { okOracle with transcribe := .error "CUDA error" }

/-- A concrete collaborator behaviour that detects a language outside the
token map. -/
def koreanOracle : FileOracle := { okOracle with transcribe := .ok ("ko", "annyeong") }

/-- The CJE token map (source line 76). -/
def cjeTokens : List (String × String) := [("zh", "[ZH]"), ("ja", "[JA]"), ("en", "[EN]")]

/-- A concrete system environment: accelerator present, no config file, no
pre-existing manifest, missing input directory. -/
def sampleEnv : SysEnv :=
  { cudaAvailable := true, configSamplingRate := none, manifest := none,
    inputDirListing := none, oracles := fun _ => okOracle }

/-- Concrete command-line arguments with an invalid language set. -/
def badLangArgs : MainArgs :=
  { languages := "XYZ", whisperSize := "medium", inputDir := "./d",
    outputFile := "out.txt", configFile := "cfg.json" }

section PerFileLemmas

variable {wavPath savePath speaker : String} {targetSr : Nat}
variable {lang2token : List (String × String)} {processedFiles : List String}
variable {oracle : FileOracle}

/-- Resumption gate: a target path already in the processed set is skipped
outright. -/
theorem process_of_mem (h : savePath ∈ processedFiles) :
    process_wav_file wavPath savePath targetSr lang2token processedFiles speaker oracle =
      ⟨false, false, none, .alreadyProcessed, [.skipProcessed savePath]⟩ := by
  simp [process_wav_file, h]

/-- A failing load is caught by the outer handler. -/
theorem process_load_error {e : String} (hmem : savePath ∉ processedFiles)
    (hld : oracle.load = .error e) :
    process_wav_file wavPath savePath targetSr lang2token processedFiles speaker oracle =
      ⟨false, false, none, .ioError, [.processError wavPath]⟩ := by
  simp [process_wav_file, hmem, hld]

/-- An over-long file is rejected before save and transcription. -/
theorem process_too_long {nc ns sr : Nat} (hmem : savePath ∉ processedFiles)
    (hld : oracle.load = .ok (nc, ns, sr))
    (hdur : (resampledLen oracle ns sr targetSr : Rat) / (targetSr : Rat) > 20) :
    process_wav_file wavPath savePath targetSr lang2token processedFiles speaker oracle =
      ⟨false, false, none, .tooLong,
       [.tooLongNotice wavPath ((resampledLen oracle ns sr targetSr : Rat) / (targetSr : Rat))]⟩ := by
  simp [process_wav_file, hmem, hld, hdur]

/-- A failing save is caught by the outer handler. -/
theorem process_save_error {nc ns sr : Nat} {e : String}
    (hmem : savePath ∉ processedFiles) (hld : oracle.load = .ok (nc, ns, sr))
    (hdur : ¬ ((resampledLen oracle ns sr targetSr : Rat) / (targetSr : Rat) > 20))
    (hsv : oracle.save = .error e) :
    process_wav_file wavPath savePath targetSr lang2token processedFiles speaker oracle =
      ⟨false, false, none, .ioError, [.processError wavPath]⟩ := by
  simp [process_wav_file, hmem, hld, hdur, hsv]

/-- A transcription exception yields the transcription-failed outcome with no
append; the processed audio is already on disk. -/
theorem process_transcribe_error {nc ns sr : Nat} {e : String}
    (hmem : savePath ∉ processedFiles) (hld : oracle.load = .ok (nc, ns, sr))
    (hdur : ¬ ((resampledLen oracle ns sr targetSr : Rat) / (targetSr : Rat) > 20))
    (hsv : oracle.save = .ok ()) (htr : oracle.transcribe = .error e) :
    process_wav_file wavPath savePath targetSr lang2token processedFiles speaker oracle =
      ⟨true, true, none, .transcriptionFailed, [.transcribeError savePath]⟩ := by
  simp [process_wav_file, transcribe_one, hmem, hld, hdur, hsv, htr]

/-- A detected language outside the token map yields the
unsupported-language outcome with no append. -/
theorem process_unsupported {nc ns sr : Nat} {lang text : String}
    (hmem : savePath ∉ processedFiles) (hld : oracle.load = .ok (nc, ns, sr))
    (hdur : ¬ ((resampledLen oracle ns sr targetSr : Rat) / (targetSr : Rat) > 20))
    (hsv : oracle.save = .ok ()) (htr : oracle.transcribe = .ok (lang, text))
    (hlk : lang2token.lookup lang = none) :
    process_wav_file wavPath savePath targetSr lang2token processedFiles speaker oracle =
      ⟨true, true, none, .unsupportedLanguage,
       [.detectedLanguage savePath lang, .transcriptionText text,
        .langNotSupported lang wavPath]⟩ := by
  simp [process_wav_file, transcribe_one, hmem, hld, hdur, hsv, htr, hlk]

/-- A failing manifest append is caught by the outer handler. -/
theorem process_append_error {nc ns sr : Nat} {lang text tok e : String}
    (hmem : savePath ∉ processedFiles) (hld : oracle.load = .ok (nc, ns, sr))
    (hdur : ¬ ((resampledLen oracle ns sr targetSr : Rat) / (targetSr : Rat) > 20))
    (hsv : oracle.save = .ok ()) (htr : oracle.transcribe = .ok (lang, text))
    (hlk : lang2token.lookup lang = some tok) (hap : oracle.append = .error e) :
    process_wav_file wavPath savePath targetSr lang2token processedFiles speaker oracle =
      ⟨true, true, none, .ioError,
       [.detectedLanguage savePath lang, .transcriptionText text,
        .processError wavPath]⟩ := by
  simp [process_wav_file, transcribe_one, hmem, hld, hdur, hsv, htr, hlk, hap]

/-- The fully successful path records one annotated manifest entry. -/
theorem process_recorded {nc ns sr : Nat} {lang text tok : String}
    (hmem : savePath ∉ processedFiles) (hld : oracle.load = .ok (nc, ns, sr))
    (hdur : ¬ ((resampledLen oracle ns sr targetSr : Rat) / (targetSr : Rat) > 20))
    (hsv : oracle.save = .ok ()) (htr : oracle.transcribe = .ok (lang, text))
    (hlk : lang2token.lookup lang = some tok) (hap : oracle.append = .ok ()) :
    process_wav_file wavPath savePath targetSr lang2token processedFiles speaker oracle =
      ⟨true, true, some ⟨savePath, speaker, tok ++ text ++ tok⟩, .recorded,
       [.detectedLanguage savePath lang, .transcriptionText text,
        .processedOk savePath]⟩ := by
  simp [process_wav_file, transcribe_one, hmem, hld, hdur, hsv, htr, hlk, hap]

/-- A manifest entry is produced only when every stage has succeeded, and the
entry is the annotated line for this file. -/
theorem appendedEntry_eq_some {en : ManifestEntry}
    (h : (process_wav_file wavPath savePath targetSr lang2token processedFiles
            speaker oracle).appendedEntry = some en) :
    savePath ∉ processedFiles ∧
    ∃ nc ns sr lang text tok,
      oracle.load = .ok (nc, ns, sr) ∧
      ¬ ((resampledLen oracle ns sr targetSr : Rat) / (targetSr : Rat) > 20) ∧
      oracle.save = .ok () ∧
      oracle.transcribe = .ok (lang, text) ∧
      lang2token.lookup lang = some tok ∧
      oracle.append = .ok () ∧
      en = ⟨savePath, speaker, tok ++ text ++ tok⟩ := by
  by_cases hmem : savePath ∈ processedFiles
  · rw [process_of_mem hmem] at h
    simp at h
  · refine ⟨hmem, ?_⟩
    cases hld : oracle.load with
    | error e =>
        rw [process_load_error hmem hld] at h
        simp at h
    | ok v =>
        obtain ⟨nc, ns, sr⟩ := v
        by_cases hdur : (resampledLen oracle ns sr targetSr : Rat) / (targetSr : Rat) > 20
        · rw [process_too_long hmem hld hdur] at h
          simp at h
        · cases hsv : oracle.save with
          | error e =>
              rw [process_save_error hmem hld hdur hsv] at h
              simp at h
          | ok u =>
              cases hsv2 : oracle.transcribe with
              | error e =>
                  rw [process_transcribe_error hmem hld hdur hsv hsv2] at h
                  simp at h
              | ok p =>
                  obtain ⟨lang, text⟩ := p
                  cases hlk : lang2token.lookup lang with
                  | none =>
                      rw [process_unsupported hmem hld hdur hsv hsv2 hlk] at h
                      simp at h
                  | some tok =>
                      cases hap : oracle.append with
                      | error e =>
                          rw [process_append_error hmem hld hdur hsv hsv2 hlk hap] at h
                          simp at h
                      | ok u2 =>
                          rw [process_recorded hmem hld hdur hsv hsv2 hlk hap] at h
                          simp at h
                          exact ⟨nc, ns, sr, lang, text, tok, rfl, hdur, rfl, rfl,
                                 hlk, rfl, h.symm⟩

end PerFileLemmas

section RunLemmas

variable {targetSr : Nat} {lang2token : List (String × String)}
variable {processedFiles : List String} {oracles : Candidate → FileOracle}

/-- The driver over no candidates leaves the state unchanged. -/
theorem runDriver_nil (st : RunState) :
    runDriver [] targetSr lang2token processedFiles oracles st = st := rfl

/-- The driver processes the head candidate and continues on the tail. -/
theorem runDriver_cons (c : Candidate) (cs : List Candidate) (st : RunState) :
    runDriver (c :: cs) targetSr lang2token processedFiles oracles st =
      runDriver cs targetSr lang2token processedFiles oracles
        (stepFile targetSr lang2token processedFiles oracles st c) := rfl

/-- The manifest after a run is the starting manifest followed by exactly the
entry lines of the candidates whose processing produced an entry. -/
theorem runDriver_manifestLines (cands : List Candidate) (st : RunState) :
    (runDriver cands targetSr lang2token processedFiles oracles st).manifestLines =
      st.manifestLines ++ cands.filterMap (fun c =>
        ((candEffects targetSr lang2token processedFiles oracles c).appendedEntry).map
          entryLine) := by
  induction cands generalizing st with
  | nil => simp [runDriver]
  | cons c cs ih =>
      rw [runDriver_cons, ih, List.filterMap_cons]
      cases hc : (candEffects targetSr lang2token processedFiles oracles c).appendedEntry with
      | none =>
          simp only [candEffects] at hc
          simp [stepFile, hc]
      | some en =>
          simp only [candEffects] at hc
          simp [stepFile, hc]

/-- The transcription collaborator is invoked during a run exactly on the
target paths of the candidates whose effects flag the call. -/
theorem runDriver_transcribedPaths (cands : List Candidate) (st : RunState) :
    (runDriver cands targetSr lang2token processedFiles oracles st).transcribedPaths =
      st.transcribedPaths ++
        (cands.filter (fun c =>
          (candEffects targetSr lang2token processedFiles oracles c).transcribeCalled)).map
          (fun c => c.savePath) := by
  induction cands generalizing st with
  | nil => simp [runDriver]
  | cons c cs ih =>
      rw [runDriver_cons, ih, List.filter_cons]
      cases hc : (candEffects targetSr lang2token processedFiles oracles c).transcribeCalled with
      | false =>
          simp only [candEffects] at hc
          simp [stepFile, hc]
      | true =>
          simp only [candEffects] at hc
          simp [stepFile, hc]

/-- The processed WAV files written to disk during a run are exactly those of
the candidates whose effects flag the save. -/
theorem runDriver_savedPaths (cands : List Candidate) (st : RunState) :
    (runDriver cands targetSr lang2token processedFiles oracles st).savedPaths =
      st.savedPaths ++
        (cands.filter (fun c =>
          (candEffects targetSr lang2token processedFiles oracles c).savedToDisk)).map
          (fun c => c.savePath) := by
  induction cands generalizing st with
  | nil => simp [runDriver]
  | cons c cs ih =>
      rw [runDriver_cons, ih, List.filter_cons]
      cases hc : (candEffects targetSr lang2token processedFiles oracles c).savedToDisk with
      | false =>
          simp only [candEffects] at hc
          simp [stepFile, hc]
      | true =>
          simp only [candEffects] at hc
          simp [stepFile, hc]

/-- Every candidate of a run reaches a terminal outcome, in order. -/
theorem runDriver_outcomes (cands : List Candidate) (st : RunState) :
    (runDriver cands targetSr lang2token processedFiles oracles st).outcomes =
      st.outcomes ++ cands.map (fun c =>
        (candEffects targetSr lang2token processedFiles oracles c).outcome) := by
  induction cands generalizing st with
  | nil => simp [runDriver]
  | cons c cs ih =>
      rw [runDriver_cons, ih, List.map_cons]
      simp [stepFile, candEffects]

end RunLemmas

section ManifestLemmas

/-- Splitting a line yields at least one field, so no manifest line ever has
fewer than one field: the malformed-line guard of `load_processed_files` can
never fire. -/
theorem pySplit_length_pos (s : String) : 1 ≤ (pySplit s).length := by
  rw [pySplit, List.length_map]
  exact List.length_pos.mpr (List.splitOnP_ne_nil _ _)

/-- Membership in the fold of `load_processed_files`, for any accumulator. -/
theorem foldl_processed_mem (lines : List String) (acc : List String) (p : String) :
    (p ∈ lines.foldl (fun processed line =>
        let parts := pySplit (pyStrip line)
        if parts.length ≥ 1 then processed ++ [parts.headD ""] else processed) acc) ↔
      (p ∈ acc ∨ ∃ line ∈ lines, (pySplit (pyStrip line)).headD "" = p) := by
  induction lines generalizing acc with
  | nil => simp
  | cons l ls ih =>
      rw [List.foldl_cons]
      simp only [if_pos (pySplit_length_pos (pyStrip l))]
      rw [ih]
      simp only [List.mem_append, List.mem_singleton, List.exists_mem_cons_iff]
      constructor
      · rintro ((h | h) | h)
        · exact Or.inl h
        · exact Or.inr (Or.inl h.symm)
        · exact Or.inr (Or.inr h)
      · rintro (h | h | h)
        · exact Or.inl (Or.inl h)
        · exact Or.inl (Or.inr h.symm)
        · exact Or.inr h

end ManifestLemmas

section MoreFileLemmas

variable {wavPath savePath speaker : String} {targetSr : Nat}
variable {lang2token : List (String × String)} {processedFiles : List String}
variable {oracle : FileOracle}

/-- A candidate on which the transcription collaborator was invoked was not in
the processed set. -/
theorem not_mem_of_transcribeCalled
    (h : (process_wav_file wavPath savePath targetSr lang2token processedFiles
            speaker oracle).transcribeCalled = true) :
    savePath ∉ processedFiles := by
  intro hmem
  rw [process_of_mem hmem] at h
  simp at h

/-- A candidate that produced a manifest entry ended in the recorded
outcome. -/
theorem outcome_recorded_of_appended {en : ManifestEntry}
    (h : (process_wav_file wavPath savePath targetSr lang2token processedFiles
            speaker oracle).appendedEntry = some en) :
    (process_wav_file wavPath savePath targetSr lang2token processedFiles
      speaker oracle).outcome = .recorded := by
  obtain ⟨hmem, nc, ns, sr, lang, text, tok, hld, hdur, hsv, htr, hlk, hap, _⟩ :=
    appendedEntry_eq_some h
  rw [process_recorded hmem hld hdur hsv htr hlk hap]

end MoreFileLemmas

/-- C1: a candidate whose target path is already in the processed set loaded
from the manifest at startup is skipped without invoking the transcription
collaborator and without appending a manifest entry; consequently, over a
whole run with that startup snapshot, every path on which the collaborator is
invoked and every newly appended manifest line belongs to a target path
outside the snapshot, so a second run over the same input with the same
manifest re-transcribes no already-recorded path and duplicates no entry. -/
theorem c1_resumption_idempotence :
    (∀ wavPath savePath targetSr lang2token processedFiles speaker oracle,
      savePath ∈ processedFiles →
        process_wav_file wavPath savePath targetSr lang2token processedFiles
            speaker oracle =
          ⟨false, false, none, .alreadyProcessed, [.skipProcessed savePath]⟩) ∧
    (∀ targetSr lang2token processedFiles oracles cands st p,
      p ∈ (runDriver cands targetSr lang2token processedFiles oracles st).transcribedPaths →
        p ∈ st.transcribedPaths ∨ p ∉ processedFiles) ∧
    (∀ targetSr lang2token processedFiles oracles cands st line,
      line ∈ (runDriver cands targetSr lang2token processedFiles oracles st).manifestLines →
        line ∈ st.manifestLines ∨
          ∃ en : ManifestEntry, line = entryLine en ∧ en.savePath ∉ processedFiles) := by
  refine ⟨?_, ?_, ?_⟩
  · intro wavPath savePath targetSr lang2token processedFiles speaker oracle h
    exact process_of_mem h
  · intro targetSr lang2token processedFiles oracles cands st p hp
    rw [runDriver_transcribedPaths] at hp
    rcases List.mem_append.mp hp with h | h
    · exact Or.inl h
    · obtain ⟨c, hc, hcp⟩ := List.mem_map.mp h
      obtain ⟨-, hcall⟩ := List.mem_filter.mp hc
      subst hcp
      exact Or.inr (not_mem_of_transcribeCalled hcall)
  · intro targetSr lang2token processedFiles oracles cands st line hl
    rw [runDriver_manifestLines] at hl
    rcases List.mem_append.mp hl with h | h
    · exact Or.inl h
    · obtain ⟨c, -, hc⟩ := List.mem_filterMap.mp h
      obtain ⟨en, hen, hline⟩ := Option.map_eq_some'.mp hc
      obtain ⟨hmem, nc, ns, sr, lang, text, tok, h1, h2, h3, h4, h5, h6, hent⟩ :=
        appendedEntry_eq_some hen
      exact Or.inr ⟨en, hline.symm, by subst hent; exact hmem⟩

/-- C1 witness: a concrete already-recorded target path is skipped with no
collaborator call and no appended entry. -/
theorem c1_witness :
    ("d/spk1/processed_0.wav" ∈ ["d/spk1/processed_0.wav"]) ∧
    process_wav_file "d/spk1/a.wav" "d/spk1/processed_0.wav" 16000 cjeTokens
        ["d/spk1/processed_0.wav"] "spk1" okOracle =
      ⟨false, false, none, .alreadyProcessed,
       [.skipProcessed "d/spk1/processed_0.wav"]⟩ :=
  ⟨by decide,
   c1_resumption_idempotence.1 "d/spk1/a.wav" "d/spk1/processed_0.wav" 16000
     cjeTokens ["d/spk1/processed_0.wav"] "spk1" okOracle (by decide)⟩

/-- C2: a manifest entry for a file exists only when the resumption gate,
load, duration check, save, transcription, language gate and append all
succeeded for that file, and the entry is the annotated line for that file;
a file whose outcome is not recorded leaves the manifest unchanged; over a
run, the manifest is the starting manifest followed by exactly one line per
fully-completed candidate, so an interrupted run (a run over only the
candidates completed before the interruption) leaves no incomplete entry. -/
theorem c2_append_only_after_success :
    (∀ wavPath savePath targetSr lang2token processedFiles speaker oracle
        (en : ManifestEntry),
      (process_wav_file wavPath savePath targetSr lang2token processedFiles
          speaker oracle).appendedEntry = some en →
        savePath ∉ processedFiles ∧
        ∃ nc ns sr lang text tok,
          oracle.load = .ok (nc, ns, sr) ∧
          ¬ ((resampledLen oracle ns sr targetSr : Rat) / (targetSr : Rat) > 20) ∧
          oracle.save = .ok () ∧
          oracle.transcribe = .ok (lang, text) ∧
          lang2token.lookup lang = some tok ∧
          oracle.append = .ok () ∧
          en = ⟨savePath, speaker, tok ++ text ++ tok⟩) ∧
    (∀ wavPath savePath targetSr lang2token processedFiles speaker oracle,
      (process_wav_file wavPath savePath targetSr lang2token processedFiles
          speaker oracle).outcome ≠ .recorded →
        (process_wav_file wavPath savePath targetSr lang2token processedFiles
          speaker oracle).appendedEntry = none) ∧
    (∀ targetSr lang2token processedFiles oracles cands st,
      (runDriver cands targetSr lang2token processedFiles oracles st).manifestLines =
        st.manifestLines ++ cands.filterMap (fun c =>
          ((candEffects targetSr lang2token processedFiles oracles c).appendedEntry).map
            entryLine)) := by
  refine ⟨?_, ?_, ?_⟩
  · intro wavPath savePath targetSr lang2token processedFiles speaker oracle en h
    exact appendedEntry_eq_some h
  · intro wavPath savePath targetSr lang2token processedFiles speaker oracle h
    cases hA : (process_wav_file wavPath savePath targetSr lang2token processedFiles
        speaker oracle).appendedEntry with
    | none => rfl
    | some en => exact absurd (outcome_recorded_of_appended hA) h
  · intro targetSr lang2token processedFiles oracles cands st
    exact runDriver_manifestLines cands st

/-- C2 witness: a concrete file whose transcription raises ends in a
non-recorded outcome and appends nothing. -/
theorem c2_witness :
    ((process_wav_file "d/spk1/a.wav" "d/spk1/processed_0.wav" 16000 cjeTokens []
        "spk1" errOracle).outcome ≠ .recorded) ∧
    (process_wav_file "d/spk1/a.wav" "d/spk1/processed_0.wav" 16000 cjeTokens []
        "spk1" errOracle).appendedEntry = none := by
  have hmem : "d/spk1/processed_0.wav" ∉ ([] : List String) := by simp
  have hdur : ¬ ((resampledLen errOracle 192000 16000 16000 : Rat) / (16000 : Rat) > 20) := by
    norm_num [resampledLen]
  have hp : process_wav_file "d/spk1/a.wav" "d/spk1/processed_0.wav" 16000 cjeTokens []
      "spk1" errOracle =
      ⟨true, true, none, .transcriptionFailed,
       [.transcribeError "d/spk1/processed_0.wav"]⟩ :=
    process_transcribe_error hmem rfl hdur rfl rfl
  refine ⟨by rw [hp]; simp, ?_⟩
  exact c2_append_only_after_success.2.1 "d/spk1/a.wav" "d/spk1/processed_0.wav" 16000
    cjeTokens [] "spk1" errOracle (by rw [hp]; simp)

/-- C3: a file whose post-resample duration (sample count over the target
sample rate) strictly exceeds 20 seconds is rejected with the logged too-long
notice and appends no manifest entry, for every token map, processed set and
collaborator behaviour — in particular regardless of what transcription would
have produced, and for every target sample rate: the ceiling is the literal
20 of the source, not a parameter. -/
theorem c3_duration_ceiling :
    ∀ wavPath savePath targetSr lang2token processedFiles speaker oracle nc ns sr,
      savePath ∉ processedFiles →
      oracle.load = .ok (nc, ns, sr) →
      (resampledLen oracle ns sr targetSr : Rat) / (targetSr : Rat) > 20 →
      process_wav_file wavPath savePath targetSr lang2token processedFiles
          speaker oracle =
        ⟨false, false, none, .tooLong,
         [.tooLongNotice wavPath
            ((resampledLen oracle ns sr targetSr : Rat) / (targetSr : Rat))]⟩ := by
  intro wavPath savePath targetSr lang2token processedFiles speaker oracle nc ns sr
    hmem hld hdur
  exact process_too_long hmem hld hdur

/-- C3 witness: a concrete 25-second clip is rejected as too long. -/
theorem c3_witness :
    ("d/spk1/processed_0.wav" ∉ ([] : List String)) ∧
    tooLongOracle.load = .ok (1, 400000, 16000) ∧
    ((resampledLen tooLongOracle 400000 16000 16000 : Rat) / (16000 : Rat) > 20) ∧
    process_wav_file "d/spk1/a.wav" "d/spk1/processed_0.wav" 16000 cjeTokens []
        "spk1" tooLongOracle =
      ⟨false, false, none, .tooLong, [.tooLongNotice "d/spk1/a.wav" 25]⟩ := by
  have hmem : "d/spk1/processed_0.wav" ∉ ([] : List String) := by simp
  have hdur : (resampledLen tooLongOracle 400000 16000 16000 : Rat) / (16000 : Rat) > 20 := by
    norm_num [resampledLen]
  refine ⟨hmem, rfl, hdur, ?_⟩
  have h := c3_duration_ceiling "d/spk1/a.wav" "d/spk1/processed_0.wav" 16000
    cjeTokens [] "spk1" tooLongOracle 1 400000 16000 hmem rfl hdur
  rw [h]
  norm_num [resampledLen]

/-- C4: once a file reaches transcription and a language is detected, a
detected language outside the token map ends the file in the logged
unsupported-language outcome with no manifest entry, while any appended entry
carries annotated text that is the mapped token, then the transcript, then the
same token again. -/
theorem c4_language_gate :
    ∀ wavPath savePath targetSr lang2token processedFiles speaker oracle
        nc ns sr lang text,
      savePath ∉ processedFiles →
      oracle.load = .ok (nc, ns, sr) →
      ¬ ((resampledLen oracle ns sr targetSr : Rat) / (targetSr : Rat) > 20) →
      oracle.save = .ok () →
      oracle.transcribe = .ok (lang, text) →
      ((lang2token.lookup lang = none →
          process_wav_file wavPath savePath targetSr lang2token processedFiles
              speaker oracle =
            ⟨true, true, none, .unsupportedLanguage,
             [.detectedLanguage savePath lang, .transcriptionText text,
              .langNotSupported lang wavPath]⟩) ∧
       (∀ en : ManifestEntry,
          (process_wav_file wavPath savePath targetSr lang2token processedFiles
              speaker oracle).appendedEntry = some en →
            ∃ tok, lang2token.lookup lang = some tok ∧
              en.annotatedText = tok ++ text ++ tok)) := by
  intro wavPath savePath targetSr lang2token processedFiles speaker oracle
    nc ns sr lang text hmem hld hdur hsv htr
  constructor
  · intro hlk
    exact process_unsupported hmem hld hdur hsv htr hlk
  · intro en hen
    obtain ⟨-, nc2, ns2, sr2, lang2, text2, tok, hld2, hdur2, hsv2, htr2, hlk2,
      hap2, hent⟩ := appendedEntry_eq_some hen
    rw [htr] at htr2
    obtain ⟨hl, ht⟩ : lang2 = lang ∧ text2 = text := by
      have := (Except.ok.injEq _ _).mp htr2
      exact ⟨congrArg Prod.fst this.symm, congrArg Prod.snd this.symm⟩
    subst hl ht
    exact ⟨tok, hlk2, by subst hent; rfl⟩

/-- C4 witness: a concrete clip detected as Korean is skipped by the language
gate with no appended entry. -/
theorem c4_witness :
    cjeTokens.lookup "ko" = none ∧
    process_wav_file "d/spk1/a.wav" "d/spk1/processed_0.wav" 16000 cjeTokens []
        "spk1" koreanOracle =
      ⟨true, true, none, .unsupportedLanguage,
       [.detectedLanguage "d/spk1/processed_0.wav" "ko",
        .transcriptionText "annyeong",
        .langNotSupported "ko" "d/spk1/a.wav"]⟩ := by
  have hdur : ¬ ((resampledLen koreanOracle 192000 16000 16000 : Rat) / (16000 : Rat) > 20) := by
    norm_num [resampledLen]
  exact ⟨rfl,
    (c4_language_gate "d/spk1/a.wav" "d/spk1/processed_0.wav" 16000 cjeTokens []
      "spk1" koreanOracle 2 192000 16000 "ko" "annyeong" (by simp) rfl
      hdur rfl rfl).1 rfl⟩

/-- C5: an exception from the transcription collaborator is caught inside
`transcribe_one`, logged as a stderr event, and converted into the failure
result for that file only, which ends the file in the transcription-failed
outcome with no appended entry; the per-file step is a total function of the
collaborator behaviour — modelled exceptions included — so every candidate of
a batch reaches a terminal outcome and the batch continues to the next one. -/
theorem c5_errors_contained :
    (∀ audioPath oracle e, oracle.transcribe = .error e →
        transcribe_one audioPath oracle = (none, [.transcribeError audioPath]) ∧
        (LogEvent.transcribeError audioPath).isStderr = true) ∧
    (∀ wavPath savePath targetSr lang2token processedFiles speaker oracle nc ns sr e,
      savePath ∉ processedFiles →
      oracle.load = .ok (nc, ns, sr) →
      ¬ ((resampledLen oracle ns sr targetSr : Rat) / (targetSr : Rat) > 20) →
      oracle.save = .ok () →
      oracle.transcribe = .error e →
      process_wav_file wavPath savePath targetSr lang2token processedFiles
          speaker oracle =
        ⟨true, true, none, .transcriptionFailed, [.transcribeError savePath]⟩) ∧
    (∀ targetSr lang2token processedFiles oracles cands st,
      ((runDriver cands targetSr lang2token processedFiles oracles st).outcomes).length =
        st.outcomes.length + cands.length) := by
  refine ⟨?_, ?_, ?_⟩
  · intro audioPath oracle e h
    exact ⟨by simp [transcribe_one, h], rfl⟩
  · intro wavPath savePath targetSr lang2token processedFiles speaker oracle
      nc ns sr e hmem hld hdur hsv htr
    exact process_transcribe_error hmem hld hdur hsv htr
  · intro targetSr lang2token processedFiles oracles cands st
    rw [runDriver_outcomes]
    simp

/-- C5 witness: a concrete raising transcription is converted into the failure
result and the transcription-failed outcome. -/
theorem c5_witness :
    errOracle.transcribe = .error "CUDA error" ∧
    transcribe_one "d/spk1/processed_0.wav" errOracle =
      (none, [.transcribeError "d/spk1/processed_0.wav"]) := by
  refine ⟨rfl, ?_⟩
  exact (c5_errors_contained.1 "d/spk1/processed_0.wav" errOracle "CUDA error" rfl).1

/-- C6: `load_processed_files` over an absent manifest is the empty set; over
a present manifest its members are exactly the first pipe-delimited fields of
the manifest lines; and splitting always yields at least one field, so no
line has fewer than one field — the malformed-line guard never fires and
nothing errors. -/
theorem c6_load_processed_files :
    load_processed_files none = [] ∧
    (∀ lines p, (p ∈ load_processed_files (some lines)) ↔
        ∃ line ∈ lines, (pySplit (pyStrip line)).headD "" = p) ∧
    (∀ s : String, 1 ≤ (pySplit s).length) := by
  refine ⟨rfl, ?_, fun s => pySplit_length_pos s⟩
  intro lines p
  rw [load_processed_files, foldl_processed_mem]
  simp

/-- C6 witness: a concrete manifest with one well-formed line, one line with
no delimiter, and one empty line yields exactly the two first fields. -/
theorem c6_witness :
    ("d/spk1/processed_0.wav" ∈
      load_processed_files (some ["d/spk1/processed_0.wav|spk1|[EN]hi[EN]", "x", ""])) ∧
    load_processed_files none = [] := by
  constructor
  · exact (c6_load_processed_files.2.1
      ["d/spk1/processed_0.wav|spk1|[EN]hi[EN]", "x", ""]
      "d/spk1/processed_0.wav").mpr
      ⟨"d/spk1/processed_0.wav|spk1|[EN]hi[EN]", by simp, by decide⟩
  · exact c6_load_processed_files.1

/-- C7 counterexample: the command-line surface of the script is exactly the
five flags registered on source lines 67-71 — none of them is a
force-reprocess flag — and the resumption gate in `process_wav_file` takes no
force input at all: at a concrete already-recorded target it skips (no
collaborator call, no append) under every configuration the script can be
given, so the claim that the surface includes a force flag consulted by the
gate is false. -/
theorem c7_counterexample :
    cliArgNames =
      ["--languages", "--whisper_size", "--input_dir", "--output_file",
       "--config_file"] ∧
    (cliArgNames.all fun a =>
      !(a == "--force") && !(a == "--force_reprocess") &&
      !(a == "--force-reprocess")) = true ∧
    process_wav_file "d/spk1/a.wav" "d/spk1/processed_0.wav" 16000 cjeTokens
        ["d/spk1/processed_0.wav"] "spk1" okOracle =
      ⟨false, false, none, .alreadyProcessed,
       [.skipProcessed "d/spk1/processed_0.wav"]⟩ := by
  refine ⟨rfl, by decide, ?_⟩
  exact process_of_mem (by decide)

/-- C7 as amended: the command-line surface contains no force-reprocess flag,
and the resumption gate skips a candidate whose target path is in the
processed set unconditionally — there is no input through which forced
reprocessing could be requested. -/
theorem c7_no_force_flag :
    (cliArgNames.all fun a =>
      !(a == "--force") && !(a == "--force_reprocess") &&
      !(a == "--force-reprocess")) = true ∧
    (∀ wavPath savePath targetSr lang2token processedFiles speaker oracle,
      savePath ∈ processedFiles →
        process_wav_file wavPath savePath targetSr lang2token processedFiles
            speaker oracle =
          ⟨false, false, none, .alreadyProcessed, [.skipProcessed savePath]⟩) := by
  refine ⟨by decide, ?_⟩
  intro wavPath savePath targetSr lang2token processedFiles speaker oracle h
  exact process_of_mem h

/-- C7 witness: the unconditional skip at a concrete already-recorded
target. -/
theorem c7_witness :
    ("d/spk2/processed_3.wav" ∈ ["other.wav", "d/spk2/processed_3.wav"]) ∧
    process_wav_file "d/spk2/b.wav" "d/spk2/processed_3.wav" 22050 cjeTokens
        ["other.wav", "d/spk2/processed_3.wav"] "spk2" errOracle =
      ⟨false, false, none, .alreadyProcessed,
       [.skipProcessed "d/spk2/processed_3.wav"]⟩ :=
  ⟨by decide,
   c7_no_force_flag.2 "d/spk2/b.wav" "d/spk2/processed_3.wav" 22050 cjeTokens
     ["other.wav", "d/spk2/processed_3.wav"] "spk2" errOracle (by decide)⟩

/-- C8: for one speaker directory, the filtered listing holds exactly the
files ending in `.wav` that do not start with `processed_`, and the i-th
candidate (in enumeration order of the filtered listing) pairs the i-th such
file with the target path `processed_<i>.wav` inside that speaker
directory. -/
theorem c8_discovery :
    ∀ inputDir speaker files,
      (∀ f, (f ∈ wavFilter files) ↔
        (f ∈ files ∧ pyEndsWith f ".wav" = true ∧ pyStartsWith f "processed_" = false)) ∧
      (speakerCandidates inputDir speaker files).length = (wavFilter files).length ∧
      (∀ i (h1 : i < (wavFilter files).length)
          (h2 : i < (speakerCandidates inputDir speaker files).length),
        (speakerCandidates inputDir speaker files).get ⟨i, h2⟩ =
          { speaker := speaker,
            wavPath := pathJoin (pathJoin inputDir speaker)
                         ((wavFilter files).get ⟨i, h1⟩),
            savePath := pathJoin (pathJoin inputDir speaker)
                          ("processed_" ++ toString i ++ ".wav") }) := by
  intro inputDir speaker files
  refine ⟨?_, ?_, ?_⟩
  · intro f
    simp [wavFilter, List.mem_filter, Bool.and_eq_true, Bool.not_eq_true']
  · simp [speakerCandidates]
  · intro i h1 h2
    simp [speakerCandidates, List.get_eq_getElem, List.getElem_map, List.getElem_enum]

/-- C8 witness: a concrete listing with a stray text file and an existing
processed file yields exactly the two WAV candidates, the second paired with
`processed_1.wav`. -/
theorem c8_witness :
    (1 < (wavFilter ["a.wav", "processed_0.wav", "notes.txt", "b.wav"]).length) ∧
    (speakerCandidates "in" "spk1"
        ["a.wav", "processed_0.wav", "notes.txt", "b.wav"]).get ⟨1, by decide⟩ =
      { speaker := "spk1", wavPath := "in/spk1/b.wav",
        savePath := "in/spk1/processed_1.wav" } := by
  refine ⟨by decide, ?_⟩
  have h := (c8_discovery "in" "spk1"
    ["a.wav", "processed_0.wav", "notes.txt", "b.wav"]).2.2 1 (by decide) (by decide)
  rw [h]
  decide

/-- C9: an invalid language-set value, a missing compute accelerator, and a
missing input directory each abort the run with the corresponding fatal
error — checked in that source order, all before any file is processed (an
error result carries no run state at all) — and every fatal error yields a
non-zero exit status and a non-empty message on the error stream. -/
theorem c9_fatal_preconditions :
    ∀ env args,
      (lang2tokenFor args.languages = none →
        runMain env args = .error (.invalidLanguageSet args.languages)) ∧
      (∀ l2t, lang2tokenFor args.languages = some l2t →
        env.cudaAvailable = false →
        runMain env args = .error .noAccelerator) ∧
      (∀ l2t, lang2tokenFor args.languages = some l2t →
        env.cudaAvailable = true →
        env.inputDirListing = none →
        runMain env args = .error (.missingInputDir args.inputDir)) ∧
      (∀ e, runMain env args = .error e →
        exitCode (runMain env args) ≠ 0 ∧ 0 < (fatalMessage e).length) := by
  intro env args
  refine ⟨?_, ?_, ?_, ?_⟩
  · intro h
    simp [runMain, h]
  · intro l2t h hc
    simp [runMain, h, hc]
  · intro l2t h hc hd
    simp [runMain, h, hc, hd]
  · intro e he
    refine ⟨by rw [he]; simp [exitCode], ?_⟩
    cases e with
    | invalidLanguageSet s =>
        simp only [fatalMessage, String.length_append]
        have h : 0 < ("Invalid language set: ").length := by decide
        omega
    | noAccelerator => decide
    | missingInputDir d =>
        simp only [fatalMessage, String.length_append]
        have h : 0 < ("FileNotFoundError: No such file or directory: ").length := by decide
        omega

/-- C9 witness: a concrete invalid language set aborts with the invalid
language-set error before any processing. -/
theorem c9_witness :
    lang2tokenFor "XYZ" = none ∧
    runMain sampleEnv badLangArgs = .error (.invalidLanguageSet "XYZ") := by
  refine ⟨by decide, ?_⟩
  exact (c9_fatal_preconditions sampleEnv badLangArgs).1 (by decide)

/-- C10: the transcription collaborator is only ever invoked after the
processed audio has been persisted to the target path, and a file that ends
in the unsupported-language or transcription-failed outcome still has its
processed audio on disk while the manifest gains nothing for it: only the
append depends on transcription success. -/
theorem c10_saved_before_transcribe :
    ∀ wavPath savePath targetSr lang2token processedFiles speaker oracle,
      ((process_wav_file wavPath savePath targetSr lang2token processedFiles
          speaker oracle).transcribeCalled = true →
        (process_wav_file wavPath savePath targetSr lang2token processedFiles
          speaker oracle).savedToDisk = true) ∧
      (((process_wav_file wavPath savePath targetSr lang2token processedFiles
          speaker oracle).outcome = .unsupportedLanguage ∨
        (process_wav_file wavPath savePath targetSr lang2token processedFiles
          speaker oracle).outcome = .transcriptionFailed) →
        (process_wav_file wavPath savePath targetSr lang2token processedFiles
          speaker oracle).savedToDisk = true ∧
        (process_wav_file wavPath savePath targetSr lang2token processedFiles
          speaker oracle).appendedEntry = none) := by
  intro wavPath savePath targetSr lang2token processedFiles speaker oracle
  by_cases hmem : savePath ∈ processedFiles
  · rw [process_of_mem hmem]
    simp
  · cases hld : oracle.load with
    | error e =>
        rw [process_load_error hmem hld]
        simp
    | ok v =>
        obtain ⟨nc, ns, sr⟩ := v
        by_cases hdur : (resampledLen oracle ns sr targetSr : Rat) / (targetSr : Rat) > 20
        · rw [process_too_long hmem hld hdur]
          simp
        · cases hsv : oracle.save with
          | error e =>
              rw [process_save_error hmem hld hdur hsv]
              simp
          | ok u =>
              cases htr : oracle.transcribe with
              | error e =>
                  rw [process_transcribe_error hmem hld hdur hsv htr]
                  simp
              | ok p =>
                  obtain ⟨lang, text⟩ := p
                  cases hlk : lang2token.lookup lang with
                  | none =>
                      rw [process_unsupported hmem hld hdur hsv htr hlk]
                      simp
                  | some tok =>
                      cases hap : oracle.append with
                      | error e =>
                          rw [process_append_error hmem hld hdur hsv htr hlk hap]
                          simp
                      | ok u2 =>
                          rw [process_recorded hmem hld hdur hsv htr hlk hap]
                          simp

/-- C10 witness: a concrete clip skipped by the language gate still has its
processed audio saved to disk and no manifest entry. -/
theorem c10_witness :
    ((process_wav_file "d/spk1/a.wav" "d/spk1/processed_0.wav" 16000 cjeTokens []
        "spk1" koreanOracle).outcome = .unsupportedLanguage) ∧
    (process_wav_file "d/spk1/a.wav" "d/spk1/processed_0.wav" 16000 cjeTokens []
        "spk1" koreanOracle).savedToDisk = true ∧
    (process_wav_file "d/spk1/a.wav" "d/spk1/processed_0.wav" 16000 cjeTokens []
        "spk1" koreanOracle).appendedEntry = none := by
  have hdur : ¬ ((resampledLen koreanOracle 192000 16000 16000 : Rat) / (16000 : Rat) > 20) := by
    norm_num [resampledLen]
  have hp : process_wav_file "d/spk1/a.wav" "d/spk1/processed_0.wav" 16000 cjeTokens []
      "spk1" koreanOracle =
      ⟨true, true, none, .unsupportedLanguage,
       [.detectedLanguage "d/spk1/processed_0.wav" "ko",
        .transcriptionText "annyeong",
        .langNotSupported "ko" "d/spk1/a.wav"]⟩ :=
    process_unsupported (by simp) rfl hdur rfl rfl rfl
  have hout : (process_wav_file "d/spk1/a.wav" "d/spk1/processed_0.wav" 16000 cjeTokens []
      "spk1" koreanOracle).outcome = .unsupportedLanguage := by rw [hp]
  have h := (c10_saved_before_transcribe "d/spk1/a.wav" "d/spk1/processed_0.wav" 16000
    cjeTokens [] "spk1" koreanOracle).2 (Or.inl hout)
  exact ⟨hout, h.1, h.2⟩

end ShortAudioTranscribe
